import Mathlib

set_option maxRecDepth 100000

/-!
A shallow embedding of the job-matching and application-throttling core of the
CareerCopilot repository (`resume_matcher.py`, `application_engine.py`,
`models.py`, `config.py`), together with theorems settling the frozen claims
about it.

Modelling conventions:
* Python floats are modelled with exact rationals (`ℚ`); `int(x)` is truncation
  toward zero (`pyInt`).
* Python strings are ASCII here; `str.lower`/`str.strip` are modelled on the
  character list of the string.
* `difflib.SequenceMatcher.ratio` is modelled exactly (the junk/autojunk
  machinery is inactive for the short strings involved, since autojunk only
  triggers for second sequences of length ≥ 200).
* Database rows become lists inside an explicit `DBState`; SQL autoincrement
  ids are `next_listing_id` / `next_application_id`.  Timestamp columns are
  reduced to an abstract day number `today`, which is all the engine inspects.
* The external submission step (`_submit_application`, a browser-automation
  collaborator) is a parameter `submit : JobData → Except String Unit`;
  `Except.error` models the step raising, which `process_job_batch` catches.
-/

/-- Python `int()` applied to a (nonnegative or negative) rational: truncation
toward zero. -/
def pyInt (q : ℚ) : ℤ := if 0 ≤ q then ⌊q⌋ else ⌈q⌉

/-- Python `str.lower()` (ASCII). -/
def pyLower (s : String) : String := String.mk (s.data.map Char.toLower)

/-- Python `str.strip()` (ASCII whitespace). -/
def pyStrip (s : String) : String :=
  String.mk (((s.data.dropWhile Char.isWhitespace).reverse.dropWhile Char.isWhitespace).reverse)

/-- Does `hay` begin with `needle`? -/
def beginsWith : List Char → List Char → Bool
  | [], _ => true
  | _ :: _, [] => false
  | c :: cs, d :: ds => c == d && beginsWith cs ds

/-- Python `needle in hay` on strings: contiguous-substring containment. -/
def containsSub (needle : List Char) : List Char → Bool
  | [] => needle.isEmpty
  | c :: t => beginsWith needle (c :: t) || containsSub needle t

/-- Python `list(set(xs))`, realised with first-occurrence order (the claims
measured are all order-insensitive). -/
def pyDedupAux : List String → List String → List String
  | [], _ => []
  | x :: xs, seen => if seen.contains x then pyDedupAux xs seen else x :: pyDedupAux xs (x :: seen)

/-- Deduplicate, keeping first occurrences. -/
def pyDedup (l : List String) : List String := pyDedupAux l []

/-- Numeric value of a digit run. -/
def digitsVal (l : List Char) : Nat := l.foldl (fun n c => 10 * n + (c.toNat - 48)) 0

/-- The first maximal digit run of a character list, if any. -/
def firstIntRun : List Char → Option (List Char)
  | [] => none
  | c :: cs => if c.isDigit then some (c :: cs.takeWhile Char.isDigit) else firstIntRun cs

/-- Python `int(re.findall(r'(\d+)', s)[0])` (as an `Option`): the first
maximal digit run of `s`, as a number. -/
def firstIntOfString (s : String) : Option Nat := (firstIntRun s.data).map digitsVal

/-!  `difflib.SequenceMatcher` (no junk): the quadratic longest-matching-block
algorithm, modelled on `List Char`.  `j2len` dictionaries become total
functions that are `0` outside their domain. -/

/-- One row (`i` fixed) of `find_longest_match`'s dynamic program: fold over
`j ∈ [blo, bhi)`, building this row's `j2len` from the previous row's and
updating the running best `(besti, bestj, bestsize)` exactly when a strictly
longer match ending at `(i, j)` appears. -/
def lmRow (b : List Char) (c : Char) (i blo bhi : Nat) (j2len : Nat → Nat)
    (best : Nat × Nat × Nat) : (Nat → Nat) × (Nat × Nat × Nat) :=
  (List.range' blo (bhi - blo)).foldl
    (fun acc j =>
      if b.getD j (Char.ofNat 0) == c then
        let k := (if j = 0 then 0 else j2len (j - 1)) + 1
        let f := acc.1
        let best1 := if k > acc.2.2.2 then (i + 1 - k, j + 1 - k, k) else acc.2
        (fun x => if x = j then k else f x, best1)
      else acc)
    ((fun _ => 0), best)

/-- `SequenceMatcher.find_longest_match(alo, ahi, blo, bhi)` with empty junk
sets: returns `(besti, bestj, bestsize)`. -/
def findLongestMatch (a b : List Char) (alo ahi blo bhi : Nat) : Nat × Nat × Nat :=
  ((List.range' alo (ahi - alo)).foldl
    (fun acc i => lmRow b (a.getD i (Char.ofNat 0)) i blo bhi acc.1 acc.2)
    ((fun _ => 0), (alo, blo, 0))).2

/-- Total size of the matching blocks of `a[alo:ahi]` vs `b[blo:bhi]`
(`get_matching_blocks` recursion).  `fuel` only bounds the recursion depth;
`(ahi - alo) + (bhi - blo) + 1` always suffices because every recursive call
strictly shrinks the combined interval. -/
def matchingTotal (a b : List Char) : Nat → Nat → Nat → Nat → Nat → Nat
  | 0, _, _, _, _ => 0
  | fuel + 1, alo, ahi, blo, bhi =>
    let t := findLongestMatch a b alo ahi blo bhi
    if t.2.2 = 0 then 0
    else
      t.2.2 + matchingTotal a b fuel alo t.1 blo t.2.1
        + matchingTotal a b fuel (t.1 + t.2.2) ahi (t.2.1 + t.2.2) bhi

/-- `SequenceMatcher(None, a, b).ratio()`: `2 * M / (len(a) + len(b))`, and
`1.0` when both strings are empty. -/
def seqRatio (a b : String) : ℚ :=
  let la := a.data
  let lb := b.data
  let matchCount := matchingTotal la lb (la.length + lb.length + 1) 0 la.length 0 lb.length
  if la.length + lb.length = 0 then 1
  else (2 * matchCount : ℚ) / ((la.length : ℚ) + (lb.length : ℚ))

/-! The static candidate profile (`CANDIDATE_RESUME` in `resume_matcher.py`). -/

/-- `CANDIDATE_RESUME["primary_skills"]`. -/
def CANDIDATE_RESUME_primary_skills : List (String × List String) := [
  ("programming_languages", ["Python", "JavaScript"]),
  ("web_frameworks", ["Django", "FastAPI", "Flask"]),
  ("databases", ["PostgreSQL", "MySQL", "SQL"]),
  ("aws_services", ["Lambda", "EC2", "S3", "RDS", "CloudWatch",
    "Glue", "Athena", "Kinesis", "Firehose",
    "IAM", "VPC", "CloudFormation", "API Gateway",
    "CloudFront", "Aurora"]),
  ("devops_tools", ["Docker", "Kubernetes", "Jenkins", "GitHub Actions", "Terraform"]),
  ("data_tools", ["Pandas", "NumPy"]),
  ("frontend", ["ReactJS"]),
  ("apis_protocols", ["REST APIs", "JWT", "OAuth2"]),
  ("message_queues", ["Celery", "Redis"]),
  ("other_tools", ["Linux", "Git", "CI/CD"])]

/-- `CANDIDATE_RESUME["specializations"]`. -/
def CANDIDATE_RESUME_specializations : List String :=
  ["Data Engineering", "ETL Pipelines", "Microservices", "API Integrations"]

/-- `CANDIDATE_RESUME["ai_ml_knowledge"]["frameworks"]`. -/
def CANDIDATE_RESUME_ai_ml_frameworks : List String :=
  ["Scikit-learn", "TensorFlow basics", "PyTorch basics"]

/-- `CANDIDATE_RESUME["experience_years"]`. -/
def CANDIDATE_RESUME_experience_years : Nat := 4

/-- `SkillMatcher._extract_all_skills()`: lower-cased union of all primary
skills, specializations and ML frameworks (a Python set, modelled as a
first-occurrence-ordered duplicate-free list; every use is order-insensitive). -/
def allCandidateSkills : List String :=
  pyDedup ((((CANDIDATE_RESUME_primary_skills.map Prod.snd).flatten).map pyLower)
    ++ (CANDIDATE_RESUME_specializations.map pyLower)
    ++ (CANDIDATE_RESUME_ai_ml_frameworks.map pyLower))

/-- The synonym/keyword table inside `SkillMatcher._skill_similarity`. -/
def similarity_skill_keywords : List (String × List String) := [
  ("python", ["python", "py"]),
  ("django", ["django"]),
  ("fastapi", ["fastapi", "fast-api"]),
  ("flask", ["flask"]),
  ("rest api", ["rest", "api", "restful"]),
  ("aws", ["aws", "amazon"]),
  ("docker", ["docker"]),
  ("kubernetes", ["kubernetes", "k8s"]),
  ("jenkins", ["jenkins"]),
  ("github actions", ["github", "actions"]),
  ("terraform", ["terraform"]),
  ("postgres", ["postgres", "postgresql"]),
  ("mysql", ["mysql"]),
  ("sql", ["sql"]),
  ("redis", ["redis"]),
  ("celery", ["celery"]),
  ("pandas", ["pandas"]),
  ("numpy", ["numpy"]),
  ("reactjs", ["react", "reactjs"]),
  ("javascript", ["javascript", "js"]),
  ("linux", ["linux"]),
  ("ci/cd", ["ci", "cd", "pipeline"]),
  ("microservices", ["microservices", "microservice"]),
  ("etl", ["etl"]),
  ("ai", ["ai", "artificial intelligence"]),
  ("machine learning", ["machine learning", "ml"]),
  ("ml", ["ml", "machine learning"]),
  ("data engineering", ["data engineering", "data engineer"])]

/-- One entry of the synonym table "hits": some keyword of the entry occurs as
a substring of the (lowered) job skill, and the entry's base skill or one of
its keywords is in the candidate vocabulary. -/
def keywordBaseHit (candidate_skills : List String) (job_skill_lower : String)
    (bk : String × List String) : Bool :=
  bk.2.any (fun kw => containsSub kw.data job_skill_lower.data) &&
    (candidate_skills.contains bk.1 || bk.2.any (fun kw => candidate_skills.contains kw))

/-- The running maximum of `SequenceMatcher` ratios of `t` against every
vocabulary entry (`max_similarity` loop in `_skill_similarity`). -/
def maxSeqRatio (t : String) (candidate_skills : List String) : ℚ :=
  candidate_skills.foldl
    (fun max_similarity candidate_skill =>
      let s := seqRatio t candidate_skill
      if s > max_similarity then s else max_similarity)
    0

/-- `SkillMatcher._skill_similarity(job_skill, candidate_skills)`: exact match
100, else fuzzy maximum ratio, floored at 0.85 via the synonym table when the
maximum is below 0.7, then `int(ratio * 100)`. -/
def skillSimilarity (job_skill : String) (candidate_skills : List String) : ℤ :=
  let job_skill_lower := pyStrip (pyLower job_skill)
  if candidate_skills.contains job_skill_lower then 100
  else
    let max_similarity := maxSeqRatio job_skill_lower candidate_skills
    let max_similarity :=
      if max_similarity < 7/10 then
        similarity_skill_keywords.foldl
          (fun acc bk =>
            if keywordBaseHit candidate_skills job_skill_lower bk then max acc (85/100) else acc)
          max_similarity
      else max_similarity
    pyInt (max_similarity * 100)

/-- The keyword dictionary inside `SkillMatcher._parse_job_description`. -/
def description_skill_keywords : List String := [
  "python", "django", "fastapi", "flask", "rest api", "restful",
  "postgresql", "postgres", "mysql", "sql",
  "aws", "lambda", "ec2", "s3", "rds", "cloudwatch", "glue", "athena",
  "kinesis", "firehose", "iam", "vpc", "cloudformation", "api gateway",
  "docker", "kubernetes", "jenkins", "github actions", "ci/cd", "terraform",
  "celery", "redis", "pandas", "numpy", "reactjs", "react", "javascript",
  "linux", "git", "microservices", "etl", "etl pipeline",
  "ai", "machine learning", "ml", "deep learning", "nlp",
  "data engineering", "data pipeline", "streaming", "api integration",
  "jwt", "oauth", "oauth2", "authentication", "backend", "api development"]

/-- `SkillMatcher._parse_job_description`: explicit skills plus every keyword
occurring in the lowered description, deduplicated (`list(set(...))`). -/
def parseJobDescription (job_description : String) (required_skills : List String) : List String :=
  if job_description = "" then required_skills
  else
    let job_desc_lower := pyLower job_description
    let extracted_skills := required_skills ++
      description_skill_keywords.filter (fun keyword => containsSub keyword.data job_desc_lower.data)
    pyDedup extracted_skills

/-- The per-token similarity scores of one job (`skill_scores` in
`calculate_match_score`). -/
def jobSkillScores (job_description : String) (required_skills : List String) : List ℤ :=
  (parseJobDescription job_description required_skills).map
    (fun skill => skillSimilarity skill allCandidateSkills)

/-- `average_match` in `calculate_match_score`: arithmetic mean of the
per-token similarities (`60` for an empty list, matching the code's guard). -/
def averageSkillMatch (job_description : String) (required_skills : List String) : ℚ :=
  let skill_scores := jobSkillScores job_description required_skills
  if skill_scores.length ≠ 0
  then ((skill_scores.map (fun z => (z : ℚ))).sum) / (skill_scores.length : ℚ)
  else 60

/-- The experience-adjustment block of `calculate_match_score`: parse the
first integer of the requirement string; `≤ 4` gives +10, `5–6` gives +5,
`> 6` gives −10, along with the corresponding analysis note.  An empty or
unparseable string gives no adjustment. -/
def experienceBonus (experience_required : String) : ℚ × String :=
  if experience_required = "" then (0, "")
  else
    match firstIntOfString experience_required with
    | none => (0, "")
    | some req_years =>
      if req_years ≤ 4 then
        (10, "Experience matches well (" ++ toString CANDIDATE_RESUME_experience_years
          ++ " years available)")
      else if req_years ≤ 6 then
        (5, "Slightly under experience requirement ("
          ++ toString CANDIDATE_RESUME_experience_years ++ " vs " ++ toString req_years
          ++ " years)")
      else
        (-10, "Below experience requirement ("
          ++ toString CANDIDATE_RESUME_experience_years ++ " vs " ++ toString req_years
          ++ " years)")

/-- Python `f"{q:.1f}"` for the nonnegative averages that occur here, via exact
rationals (ties round to nearest; the tie-breaking convention is never
observed by any claim). -/
def fmtOneDecimal (q : ℚ) : String :=
  let scaled : ℤ := round (q * 10)
  toString (scaled / 10) ++ "." ++ toString (scaled % 10)

/-- The analysis dictionary returned by `calculate_match_score`.
`experience_analysis` is `none` on the neutral-default branch, whose dict has
no such key. -/
structure MatchAnalysis where
  matched_skills : List (String × ℤ)
  missing_skills : List (String × ℤ)
  candidate_advantages : List String
  experience_analysis : Option String
  reasoning : String
deriving DecidableEq

/-- `SkillMatcher.calculate_match_score(job_description, required_skills,
experience_required)`: returns `(score 0-100, analysis)`. -/
def calculateMatchScore (job_description : String) (required_skills : List String)
    (experience_required : String) : ℤ × MatchAnalysis :=
  let job_skills := parseJobDescription job_description required_skills
  if job_skills = [] then
    (60, { matched_skills := [], missing_skills := [], candidate_advantages := [],
           experience_analysis := none,
           reasoning := "Unable to parse job description skills" })
  else
    let skill_results := job_skills.map (fun skill => (skill, skillSimilarity skill allCandidateSkills))
    let matched_skills := skill_results.filter (fun r => r.2 ≥ 70)
    let missing_skills := skill_results.filter (fun r => r.2 < 70)
    let average_match := averageSkillMatch job_description required_skills
    let eb := experienceBonus experience_required
    let final_score : ℚ := min 100 (max 0 (average_match + eb.1))
    let matchedNames := matched_skills.map (fun r => r.1)
    let candidate_advantages :=
      (if matchedNames.contains "aws" then ["Strong AWS expertise with multiple services"] else [])
      ++ (if matched_skills.any (fun r =>
            r.1 == "ai" || r.1 == "machine learning" || r.1 == "ml" || r.1 == "deep learning")
          then ["AI/ML project experience"] else [])
      ++ (if matchedNames.contains "microservices"
          then ["Microservices and distributed systems experience"] else [])
      ++ (if matchedNames.contains "data engineering" || matchedNames.contains "etl"
          then ["Data engineering and ETL pipeline expertise"] else [])
    (pyInt final_score,
     { matched_skills := matched_skills,
       missing_skills := missing_skills,
       candidate_advantages := candidate_advantages,
       experience_analysis := some eb.2,
       reasoning := "Matched " ++ toString matched_skills.length ++ "/"
         ++ toString job_skills.length ++ " required skills. Average skill match: "
         ++ fmtOneDecimal average_match ++ "%. " ++ eb.2 })

/-! The configuration defaults (`config.py`) consumed by the engine. -/

namespace Config

/-- `Config.DAILY_APPLICATION_LIMIT` in `config.py`. -/
def DAILY_APPLICATION_LIMIT : Nat := 30

/-- `Config.MATCH_SCORE_THRESHOLD` in `config.py`. -/
def MATCH_SCORE_THRESHOLD : ℤ := 70

end Config

/-- A `job_data` dictionary entering the engine (`models.py` column shapes);
`none` models an absent key, so `job_data.get(k, d)` becomes `(·.k).getD d`. -/
structure JobData where
  portal_job_id : Option String := none
  job_title : Option String := none
  company : Option String := none
  location : Option String := none
  portal : Option String := none
  description : Option String := none
  required_skills : Option (List String) := none
  experience_required : Option String := none
  salary_range : Option String := none
  job_url : Option String := none
deriving DecidableEq

/-- A `job_listings` row (`JobListing` in `models.py`; the `created_at`
timestamp column is not modelled, nothing reads it). -/
structure JobListing where
  id : Nat
  job_title : String
  company : String
  location : String
  portal : String
  portal_job_id : String
  description : String
  required_skills : List String
  experience_required : String
  salary_range : String
  job_url : String
deriving DecidableEq

/-- A `job_applications` row (`JobApplication` in `models.py`;
`application_date` is the abstract day number, `notes`/`created_at`/
`updated_at` are not modelled, nothing reads them). -/
structure JobApplication where
  id : Nat
  job_id : Nat
  candidate_id : Nat
  match_score : ℤ
  match_analysis : MatchAnalysis
  status : String
  application_date : Nat
deriving DecidableEq

/-- The persistent store: the two tables plus their autoincrement counters. -/
structure DBState where
  listings : List JobListing
  applications : List JobApplication
  next_listing_id : Nat
  next_application_id : Nat
deriving DecidableEq

/-- The empty database. -/
def emptyDB : DBState := { listings := [], applications := [], next_listing_id := 1, next_application_id := 1 }

/-- Python truthiness of an optional string (`if not portal_job_id`). -/
def truthyStr : Option String → Bool
  | none => false
  | some s => !(s == "")

/-- The engine's configuration (`ApplicationEngine.__init__` reads
`DAILY_APPLICATION_LIMIT` and `MATCH_SCORE_THRESHOLD` from the config). -/
structure ApplicationEngine where
  daily_limit : Nat := Config.DAILY_APPLICATION_LIMIT
  match_threshold : ℤ := Config.MATCH_SCORE_THRESHOLD
deriving DecidableEq

/-- `ApplicationEngine.get_daily_application_count`: rows with status
`applied` dated `today`. -/
def getDailyApplicationCount (today : Nat) (s : DBState) : Nat :=
  (s.applications.filter (fun a => a.status == "applied" && a.application_date == today)).length

/-- `ApplicationEngine.get_remaining_applications_today`:
`max(0, daily_limit - count)` (truncated subtraction on `Nat`). -/
def getRemainingApplicationsToday (e : ApplicationEngine) (today : Nat) (s : DBState) : Nat :=
  e.daily_limit - getDailyApplicationCount today s

/-- The dictionary returned by `ApplicationEngine.evaluate_job`. -/
structure Evaluation where
  decision : String
  match_score : ℤ
  analysis : MatchAnalysis
  passes_threshold : Bool
deriving DecidableEq

/-- `ApplicationEngine.evaluate_job`: score the job and decide `apply` iff
the score reaches the configured threshold. -/
def evaluateJob (e : ApplicationEngine) (job_data : JobData) : Evaluation :=
  let ms := calculateMatchScore (job_data.description.getD "")
    (job_data.required_skills.getD []) (job_data.experience_required.getD "")
  { decision := if ms.1 ≥ e.match_threshold then "apply" else "skip",
    match_score := ms.1,
    analysis := ms.2,
    passes_threshold := decide (ms.1 ≥ e.match_threshold) }

/-- `ApplicationEngine._get_or_create_job_listing`: `ValueError` when the
`portal_job_id` is missing or empty; otherwise return the row with that
`portal_job_id`, creating it when absent. -/
def getOrCreateJobListing (job_data : JobData) (s : DBState) :
    Except String (JobListing × DBState) :=
  if !truthyStr job_data.portal_job_id then
    .error "portal_job_id is required to create an application"
  else
    let portal_job_id := job_data.portal_job_id.getD ""
    match s.listings.find? (fun l => l.portal_job_id == portal_job_id) with
    | some listing => .ok (listing, s)
    | none =>
      let listing : JobListing := {
        id := s.next_listing_id,
        job_title := job_data.job_title.getD "Unknown Role",
        company := job_data.company.getD "Unknown Company",
        location := job_data.location.getD "Unknown Location",
        portal := job_data.portal.getD "unknown",
        portal_job_id := portal_job_id,
        description := job_data.description.getD "",
        required_skills := job_data.required_skills.getD [],
        experience_required := job_data.experience_required.getD "",
        salary_range := job_data.salary_range.getD "",
        job_url := job_data.job_url.getD "" }
      .ok (listing, { s with listings := s.listings ++ [listing],
                             next_listing_id := s.next_listing_id + 1 })

/-- `ApplicationEngine.create_application`: resolve or create the listing,
then insert the application row. -/
def createApplication (job_data : JobData) (candidate_id : Nat) (match_score : ℤ)
    (analysis : MatchAnalysis) (status : String) (today : Nat) (s : DBState) :
    Except String (JobApplication × DBState) :=
  match getOrCreateJobListing job_data s with
  | .error e => .error e
  | .ok (listing, s1) =>
    let application : JobApplication := {
      id := s1.next_application_id,
      job_id := listing.id,
      candidate_id := candidate_id,
      match_score := match_score,
      match_analysis := analysis,
      status := status,
      application_date := today }
    .ok (application, { s1 with applications := s1.applications ++ [application],
                                next_application_id := s1.next_application_id + 1 })

/-- The row predicate of the duplicate-check query: an application of this
candidate with status `applied` or `interview_received` joined (on
`job_id = listings.id`) to a listing with this `portal_job_id`. -/
def duplicateRecord (portal_job_id : String) (candidate_id : Nat)
    (listings : List JobListing) (a : JobApplication) : Bool :=
  a.candidate_id == candidate_id
    && (a.status == "applied" || a.status == "interview_received")
    && listings.any (fun l => l.id == a.job_id && l.portal_job_id == portal_job_id)

/-- `ApplicationEngine.check_duplicate_application`: `False` for a missing or
empty `portal_job_id`, else whether a duplicate row exists. -/
def checkDuplicateApplication (portal_job_id : Option String) (candidate_id : Nat)
    (s : DBState) : Bool :=
  if !truthyStr portal_job_id then false
  else s.applications.any (duplicateRecord (portal_job_id.getD "") candidate_id s.listings)

/-- One per-job disposition of `process_job_batch` (keys absent from the
Python result dict are `none`). -/
structure BatchResult where
  job : JobData
  status : String
  reason : Option String := none
  match_score : Option ℤ := none
  application_id : Option Nat := none
  analysis : Option MatchAnalysis := none
deriving DecidableEq

/-- The loop of `ApplicationEngine.process_job_batch`, with the local
`remaining_today` counter threaded through.  `submit` is the external
submission collaborator; its `Except.error` models `_submit_application`
raising, which the per-job `try` converts into an `error` disposition (a
`ValueError` from `create_application` is caught by the same `try`). -/
def processJobsFrom (e : ApplicationEngine) (submit : JobData → Except String Unit)
    (candidate_id today : Nat) :
    List JobData → Int → DBState → List BatchResult × DBState
  | [], _, s => ([], s)
  | job_data :: rest, remaining_today, s =>
    if remaining_today ≤ 0 then
      let r := processJobsFrom e submit candidate_id today rest remaining_today s
      ({ job := job_data, status := "skipped",
         reason := some "Daily application limit reached" } :: r.1, r.2)
    else if checkDuplicateApplication job_data.portal_job_id candidate_id s then
      let r := processJobsFrom e submit candidate_id today rest remaining_today s
      ({ job := job_data, status := "skipped",
         reason := some "Already applied to this job" } :: r.1, r.2)
    else
      let evaluation := evaluateJob e job_data
      if evaluation.decision == "apply" then
        match submit job_data with
        | .error exc =>
          let r := processJobsFrom e submit candidate_id today rest remaining_today s
          ({ job := job_data, status := "error", reason := some exc } :: r.1, r.2)
        | .ok _ =>
          match createApplication job_data candidate_id evaluation.match_score
              evaluation.analysis "applied" today s with
          | .error exc =>
            let r := processJobsFrom e submit candidate_id today rest remaining_today s
            ({ job := job_data, status := "error", reason := some exc } :: r.1, r.2)
          | .ok (application, s1) =>
            let r := processJobsFrom e submit candidate_id today rest (remaining_today - 1) s1
            ({ job := job_data, status := "applied",
               match_score := some evaluation.match_score,
               application_id := some application.id,
               analysis := some evaluation.analysis } :: r.1, r.2)
      else
        let r := processJobsFrom e submit candidate_id today rest remaining_today s
        ({ job := job_data, status := "skipped",
           reason := some ("Below match threshold (" ++ toString evaluation.match_score ++ "%)"),
           match_score := some evaluation.match_score,
           analysis := some evaluation.analysis } :: r.1, r.2)

/-- `ApplicationEngine.process_job_batch`: capture the remaining capacity once,
then run the per-job loop. -/
def processJobBatch (e : ApplicationEngine) (submit : JobData → Except String Unit)
    (jobs : List JobData) (candidate_id today : Nat) (s : DBState) :
    List BatchResult × DBState :=
  processJobsFrom e submit candidate_id today jobs
    ((getRemainingApplicationsToday e today s : Nat) : Int) s

/-! Specification-side definitions for the `similarity` algorithm of §4.1 of
the spec, used to compare the code's `skillSimilarity` against the spec's
three-tier description (claim C4). -/

/-- The spec's "the requirement token maps via the fixed synonym/keyword table
to a canonical skill present in the vocabulary (directly or via a keyword
hit)". -/
def keywordTableMaps (token_lower : String) (vocabulary : List String) : Bool :=
  similarity_skill_keywords.any (keywordBaseHit vocabulary token_lower)

/-- Modelled from the spec (§4.1 `similarity`), exactly as claim C4 states it:
exact case-insensitive match gives 100; otherwise the maximum sequence ratio,
floored at 0.85 when it is below 0.7 and the synonym table maps the token to a
vocabulary skill; the result is `round(ratio * 100)`. -/
def similaritySpecRound (token : String) (vocabulary : List String) : ℤ :=
  let t := pyStrip (pyLower token)
  if vocabulary.any (fun v => pyLower v == t) then 100
  else
    let ratio := maxSeqRatio t vocabulary
    let ratio :=
      if ratio < 7/10 then
        (if keywordTableMaps t vocabulary then max ratio (85/100) else ratio)
      else ratio
    round (ratio * 100)

/-- Modelled from the spec (§4.1 `similarity`) as amended by claim C4's
counterexample: identical to `similaritySpecRound` except that the final step
truncates (`int(ratio * 100)`) instead of rounding. -/
def similaritySpecTrunc (token : String) (vocabulary : List String) : ℤ :=
  let t := pyStrip (pyLower token)
  if vocabulary.any (fun v => pyLower v == t) then 100
  else
    let ratio := maxSeqRatio t vocabulary
    let ratio :=
      if ratio < 7/10 then
        (if keywordTableMaps t vocabulary then max ratio (85/100) else ratio)
      else ratio
    pyInt (ratio * 100)

/-- A synthetic job for concrete witnesses: distinct natural key, one explicit
skill that matches the candidate vocabulary exactly. -/
def mkTestJob (i : Nat) : JobData :=
  { portal_job_id := some ("job" ++ toString i), required_skills := some ["python"] }

/-- Twenty-five distinct synthetic jobs (end-to-end scenario C of the spec). -/
def jobs25 : List JobData := (List.range 25).map mkTestJob

/-- A job whose description yields no extracted skills and which has no
explicit skills, but a demanding experience requirement. -/
def jobNoSkills : JobData := { description := some "zzz", experience_required := some "10 years" }

/-- A job with a matching skill but no `portal_job_id`. -/
def jobNoPid : JobData := { required_skills := some ["python"] }

/-- An empty analysis value, for concrete ledger calls. -/
def emptyAnalysis : MatchAnalysis :=
  { matched_skills := [], missing_skills := [], candidate_advantages := [],
    experience_analysis := none, reasoning := "" }

/-! Invariants of the ledger state (claims C2, C8). -/

/-- Structural well-formedness of the store: listing ids are below the
autoincrement counter and pairwise distinct, and application rows reference
only allocated listing ids. -/
def WFState (s : DBState) : Prop :=
  (∀ l ∈ s.listings, l.id < s.next_listing_id) ∧
    s.listings.Pairwise (fun l1 l2 => l1.id ≠ l2.id) ∧
    (∀ a ∈ s.applications, a.job_id < s.next_listing_id)

/-- All applications of the candidate for the job with this `portal_job_id`
holding status `applied` or `interview_received`. -/
def pairApplications (portal_job_id : String) (candidate_id : Nat) (s : DBState) :
    List JobApplication :=
  s.applications.filter (duplicateRecord portal_job_id candidate_id s.listings)

/-- The duplicate-prevention invariant: for every (portal job, candidate) pair
at most one application row holds status `applied` or `interview_received`. -/
def DupInvariant (s : DBState) : Prop :=
  ∀ portal_job_id candidate_id, (pairApplications portal_job_id candidate_id s).length ≤ 1

/-! Helper lemmas. -/

/-- A truthy optional string is a nonempty `some`. -/
theorem truthyStr_iff (pid : Option String) :
    truthyStr pid = true ↔ ∃ p, pid = some p ∧ p ≠ "" := by
  cases pid <;> simp [truthyStr]

/-- The duplicate check can only fire on a truthy `portal_job_id`. -/
theorem checkDuplicate_truthy {pid : Option String} {cid : Nat} {s : DBState}
    (h : checkDuplicateApplication pid cid s = true) : truthyStr pid = true := by
  cases ht : truthyStr pid
  · rw [checkDuplicateApplication, ht] at h
    simp at h
  · rfl

/-- The duplicate check is `False` when no stored listing carries the job's
`portal_job_id`. -/
theorem checkDuplicate_eq_false_of_fresh (pid : Option String) (cid : Nat) (s : DBState)
    (h : ∀ l ∈ s.listings, some l.portal_job_id ≠ pid) :
    checkDuplicateApplication pid cid s = false := by
  cases pid with
  | none => rfl
  | some p =>
    rw [checkDuplicateApplication]
    cases ht : truthyStr (some p)
    · simp
    · rw [if_neg (by simp)]
      rw [List.any_eq_false]
      intro a _
      rw [duplicateRecord]
      simp only [Option.getD_some, Bool.and_eq_true, Bool.or_eq_true, beq_iff_eq,
        List.any_eq_true, not_and, not_exists]
      simp
      intro _ _ x hx _ hpl
      exact (h x hx) (by rw [hpl])


/-! Further helper lemmas for the claims. -/

/-- String `==` is symmetric. -/
theorem beq_comm_str (a b : String) : (a == b) = (b == a) := by
  by_cases h : a = b
  · rw [h]
  · rw [beq_eq_false_iff_ne.mpr h, beq_eq_false_iff_ne.mpr (Ne.symm h)]

/-- Over a lower-cased vocabulary, case-insensitive membership of a lowered
token is plain membership. -/
theorem any_lower_eq_contains (t : String) :
    ∀ (vocabulary : List String), (∀ v ∈ vocabulary, pyLower v = v) →
      vocabulary.any (fun v => pyLower v == t) = vocabulary.contains t
  | [], _ => rfl
  | v :: vs, h => by
    have hv : pyLower v = v := h v (by simp)
    have ih := any_lower_eq_contains t vs (fun w hw => h w (by simp [hw]))
    rw [List.any_cons, hv, ih, List.contains_cons, beq_comm_str]

/-- Folding the synonym table, flooring the accumulator at `0.85` on every
hit, is the same as one floor when any entry hits. -/
theorem foldl_floor_eq (hit : String × List String → Bool) :
    ∀ (tbl : List (String × List String)) (a : ℚ),
      tbl.foldl (fun acc bk => if hit bk then max acc (85/100) else acc) a
        = if tbl.any hit then max a (85/100) else a
  | [], a => by simp
  | e :: es, a => by
    rw [List.foldl_cons, List.any_cons]
    by_cases h : hit e
    · rw [if_pos h, foldl_floor_eq hit es (max a (85/100))]
      by_cases h2 : es.any hit
      · simp [h, h2, max_assoc]
      · simp [h, h2]
    · rw [if_neg h, foldl_floor_eq hit es a]
      simp only [h, Bool.false_or]

/-- C4 (amended): the code's `similarity` agrees everywhere with the spec's
three-tier algorithm once the final step is truncation instead of rounding:
exact (lower-cased) membership gives 100, otherwise the maximum sequence
ratio, floored at 0.85 when below 0.7 and the synonym table maps the token to
a vocabulary skill, then `int(ratio * 100)`. -/
theorem c4_similarity_three_tier_trunc (token : String) (vocabulary : List String)
    (hvocab : ∀ v ∈ vocabulary, pyLower v = v) :
    skillSimilarity token vocabulary = similaritySpecTrunc token vocabulary := by
  simp only [skillSimilarity, similaritySpecTrunc, keywordTableMaps]
  rw [any_lower_eq_contains (pyStrip (pyLower token)) vocabulary hvocab,
    foldl_floor_eq (keywordBaseHit vocabulary (pyStrip (pyLower token)))
      similarity_skill_keywords (maxSeqRatio (pyStrip (pyLower token)) vocabulary)]

/-- C4 witness: the amended three-tier description, instantiated at the
counterexample token and a concrete lower-cased vocabulary. -/
theorem c4_similarity_three_tier_trunc_witness :
    skillSimilarity "pythn" ["python"] = similaritySpecTrunc "pythn" ["python"] :=
  c4_similarity_three_tier_trunc "pythn" ["python"] (by decide)

/-- C4 counterexample: claim C4 as stated (with `round(ratio * 100)`) fails at
token `"pythn"` against vocabulary `["python"]`: the maximum sequence ratio is
`10/11`, the code (`int(ratio * 100)`) returns 90 while the claimed rounding
returns 91. -/
theorem c4_round_counterexample :
    skillSimilarity "pythn" ["python"] = 90 ∧
      similaritySpecRound "pythn" ["python"] = 91 ∧ (90 : ℤ) ≠ 91 := by
  refine ⟨by with_unfolding_all decide, by with_unfolding_all decide, by decide⟩

/-- C3 (amended): for the experience requirement `"6-8 years"` the first
parsed integer is 6, which the code treats as the borderline band, so the
final score is the clamped unadjusted mean plus 5 (not minus 10) whenever any
skills were extracted. -/
theorem c3_experience_adjustment_plus5 (job_description : String)
    (required_skills : List String)
    (h : parseJobDescription job_description required_skills ≠ []) :
    (calculateMatchScore job_description required_skills "6-8 years").1 =
      pyInt (min 100 (max 0 (averageSkillMatch job_description required_skills + 5))) := by
  have hb : experienceBonus "6-8 years" =
      (5, "Slightly under experience requirement (4 vs 6 years)") := by
    with_unfolding_all decide
  rw [calculateMatchScore, if_neg h, hb]

/-- C3 witness: a job with one extracted skill (`"k8s"`, similarity 85), whose
final score under `"6-8 years"` is `85 + 5 = 90`. -/
theorem c3_experience_adjustment_plus5_witness :
    parseJobDescription "" ["k8s"] ≠ [] ∧
      (calculateMatchScore "" ["k8s"] "6-8 years").1 =
        pyInt (min 100 (max 0 (averageSkillMatch "" ["k8s"] + 5))) :=
  ⟨by decide, c3_experience_adjustment_plus5 "" ["k8s"] (by decide)⟩

/-- C3 counterexample: claim C3 as stated (a −10 adjustment for `"6-8 years"`)
fails: for the job with the single extracted skill `"k8s"` the unadjusted mean
is 85, a −10 adjustment would give 75, but the code returns 90 (a +5
adjustment). -/
theorem c3_minus10_counterexample :
    averageSkillMatch "" ["k8s"] = 85 ∧
      (calculateMatchScore "" ["k8s"] "6-8 years").1 = 90 ∧
      pyInt (min 100 (max 0 ((85 : ℚ) + -10))) = 75 ∧ (90 : ℤ) ≠ 75 := by
  refine ⟨by with_unfolding_all decide, by with_unfolding_all decide,
    by with_unfolding_all decide, by decide⟩

/-- C5: when skill extraction yields nothing and no explicit skills were
given, scoring returns the documented neutral default — score 60, empty
matched and missing lists, and a reasoning note — instead of an error. -/
theorem c5_neutral_default (job_description experience_required : String)
    (h : parseJobDescription job_description [] = []) :
    calculateMatchScore job_description [] experience_required =
      (60, { matched_skills := [], missing_skills := [], candidate_advantages := [],
             experience_analysis := none,
             reasoning := "Unable to parse job description skills" }) := by
  rw [calculateMatchScore, h, if_pos rfl]

/-- C5 witness: the empty description with no explicit skills. -/
theorem c5_neutral_default_witness :
    parseJobDescription "" [] = [] ∧
      calculateMatchScore "" [] "3 years" =
        (60, { matched_skills := [], missing_skills := [], candidate_advantages := [],
               experience_analysis := none,
               reasoning := "Unable to parse job description skills" }) :=
  ⟨rfl, c5_neutral_default "" "3 years" rfl⟩

/-- C6: the matcher's score is total and always an integer in [0, 100], for
every description, explicit skill list and experience string. -/
theorem c6_score_total_range (job_description : String) (required_skills : List String)
    (experience_required : String) :
    0 ≤ (calculateMatchScore job_description required_skills experience_required).1 ∧
      (calculateMatchScore job_description required_skills experience_required).1 ≤ 100 := by
  rw [calculateMatchScore]
  by_cases h : parseJobDescription job_description required_skills = []
  · rw [if_pos h]
    exact ⟨by norm_num, by norm_num⟩
  · rw [if_neg h]
    dsimp only
    set x : ℚ := averageSkillMatch job_description required_skills
      + (experienceBonus experience_required).1 with hx
    have h0 : (0 : ℚ) ≤ min 100 (max 0 x) := le_min (by norm_num) (le_max_left 0 x)
    have h100 : min (100 : ℚ) (max 0 x) ≤ 100 := min_le_left _ _
    rw [pyInt, if_pos h0]
    constructor
    · exact Int.floor_nonneg.mpr h0
    · have hf := Int.floor_le_floor h100
      simpa using hf

/-- C10: under the default configuration (threshold 70), any job with no
extracted and no explicit skills scores exactly 60 — the experience
adjustment never applies to the neutral default — and is decided `skip`. -/
theorem c10_neutral_default_skip (job_data : JobData)
    (h : parseJobDescription (job_data.description.getD "")
      (job_data.required_skills.getD []) = []) :
    (evaluateJob {} job_data).match_score = 60 ∧
      (evaluateJob {} job_data).decision = "skip" ∧
      (evaluateJob {} job_data).passes_threshold = false := by
  have hm : calculateMatchScore (job_data.description.getD "")
      (job_data.required_skills.getD []) (job_data.experience_required.getD "") =
      (60, { matched_skills := [], missing_skills := [], candidate_advantages := [],
             experience_analysis := none,
             reasoning := "Unable to parse job description skills" }) := by
    rw [calculateMatchScore, h, if_pos rfl]
  have hlt : ¬ ((60 : ℤ) ≥ Config.MATCH_SCORE_THRESHOLD) := by
    rw [Config.MATCH_SCORE_THRESHOLD]; norm_num
  rw [evaluateJob, hm]
  dsimp only
  refine ⟨rfl, ?_, ?_⟩
  · rw [if_neg hlt]
  · exact decide_eq_false hlt

/-- C10 witness: a job whose description contains no skill keyword and carries
a demanding experience requirement; the neutral default still yields `skip`. -/
theorem c10_neutral_default_skip_witness :
    parseJobDescription (jobNoSkills.description.getD "") (jobNoSkills.required_skills.getD [])
        = [] ∧
      (evaluateJob {} jobNoSkills).decision = "skip" :=
  ⟨by with_unfolding_all decide,
   (c10_neutral_default_skip jobNoSkills (by with_unfolding_all decide)).2.1⟩

/-- C7: when the submission collaborator fails for a job that passed the
capacity, duplicate and threshold gates, the batch records an `error`
disposition carrying the failure reason, does not decrement the remaining
capacity, leaves the store untouched, and continues with the remaining
jobs. -/
theorem c7_submission_failure (e : ApplicationEngine)
    (submit : JobData → Except String Unit) (cid today : Nat) (job_data : JobData)
    (rest : List JobData) (remaining : Int) (s : DBState) (exc : String)
    (hrem : 0 < remaining)
    (hdup : checkDuplicateApplication job_data.portal_job_id cid s = false)
    (happly : (evaluateJob e job_data).decision = "apply")
    (hsub : submit job_data = .error exc) :
    processJobsFrom e submit cid today (job_data :: rest) remaining s =
      ({ job := job_data, status := "error", reason := some exc } ::
        (processJobsFrom e submit cid today rest remaining s).1,
       (processJobsFrom e submit cid today rest remaining s).2) := by
  have h0 : ¬ (remaining ≤ 0) := by omega
  simp only [processJobsFrom, if_neg h0, hdup, happly, hsub, Bool.false_eq_true, if_false,
    beq_self_eq_true, if_true]

/-- C7 witness: a concrete failing submission inside a two-job batch. -/
theorem c7_submission_failure_witness :
    processJobsFrom {} (fun _ => .error "boom") 1 0
        [mkTestJob 0, mkTestJob 1] 5 emptyDB =
      ({ job := mkTestJob 0, status := "error", reason := some "boom" } ::
        (processJobsFrom {} (fun _ => .error "boom") 1 0 [mkTestJob 1] 5 emptyDB).1,
       (processJobsFrom {} (fun _ => .error "boom") 1 0 [mkTestJob 1] 5 emptyDB).2) :=
  c7_submission_failure {} (fun _ => .error "boom") 1 0 (mkTestJob 0) [mkTestJob 1] 5 emptyDB
    "boom" (by decide) (by decide) (by with_unfolding_all decide) rfl

/-- `String.append` acts as append on the character lists. -/
theorem string_append_data (a b : String) : (a ++ b).data = a.data ++ b.data := rfl

/-- A below-threshold reason never reads as the duplicate reason, whatever the
interpolated score text. -/
theorem below_reason_ne (t : String) :
    ("Below match threshold (" ++ t ++ "%)" : String) ≠ "Already applied to this job" := by
  intro hcontra
  have hdata := congrArg String.data hcontra
  rw [string_append_data, string_append_data] at hdata
  have hh : ('B' : Char) = 'A' := congrArg (fun l => List.getD l 0 ' ') hdata
  exact absurd hh (by decide)

/-- No disposition of the batch loop for a job without a truthy
`portal_job_id` is a duplicate skip. -/
theorem processJobsFrom_no_dup_skip (e : ApplicationEngine)
    (submit : JobData → Except String Unit) (cid today : Nat) :
    ∀ (jobs : List JobData) (m : Int) (s : DBState) (r : BatchResult),
      r ∈ (processJobsFrom e submit cid today jobs m s).1 →
      truthyStr r.job.portal_job_id = false →
      ¬ (r.status = "skipped" ∧ r.reason = some "Already applied to this job")
  | [], m, s, r, hr, _ => by simp [processJobsFrom] at hr
  | jd :: rest, m, s, r, hr, hun => by
    rw [processJobsFrom] at hr
    by_cases h0 : m ≤ 0
    · rw [if_pos h0] at hr
      dsimp only at hr
      rcases List.mem_cons.mp hr with hEq | hmem
      · subst hEq
        rintro ⟨_, hre⟩
        have hre1 : some "Daily application limit reached"
            = some "Already applied to this job" := hre
        exact absurd hre1 (by decide)
      · exact processJobsFrom_no_dup_skip e submit cid today rest m s r hmem hun
    rw [if_neg h0] at hr
    cases hdup : checkDuplicateApplication jd.portal_job_id cid s with
    | true =>
      rw [hdup, if_pos rfl] at hr
      dsimp only at hr
      rcases List.mem_cons.mp hr with hEq | hmem
      · subst hEq
        intro _
        have hun1 : truthyStr jd.portal_job_id = false := hun
        rw [checkDuplicate_truthy hdup] at hun1
        exact absurd hun1 (by decide)
      · exact processJobsFrom_no_dup_skip e submit cid today rest m s r hmem hun
    | false =>
      rw [hdup, if_neg (by simp)] at hr
      dsimp only at hr
      cases hd : (evaluateJob e jd).decision == "apply" with
      | false =>
        rw [hd, if_neg (by simp)] at hr
        dsimp only at hr
        rcases List.mem_cons.mp hr with hEq | hmem
        · subst hEq
          rintro ⟨_, hre⟩
          have hre1 : some ("Below match threshold ("
                ++ toString (evaluateJob e jd).match_score ++ "%)")
              = some "Already applied to this job" := hre
          exact below_reason_ne _ (Option.some.inj hre1)
        · exact processJobsFrom_no_dup_skip e submit cid today rest m s r hmem hun
      | true =>
        rw [hd, if_pos rfl] at hr
        cases hsub : submit jd with
        | error exc =>
          rw [hsub] at hr
          dsimp only at hr
          rcases List.mem_cons.mp hr with hEq | hmem
          · subst hEq
            rintro ⟨hst, _⟩
            have hst1 : ("error" : String) = "skipped" := hst
            exact absurd hst1 (by decide)
          · exact processJobsFrom_no_dup_skip e submit cid today rest m s r hmem hun
        | ok u =>
          rw [hsub] at hr
          dsimp only at hr
          cases hca : createApplication jd cid (evaluateJob e jd).match_score
              (evaluateJob e jd).analysis "applied" today s with
          | error exc =>
            rw [hca] at hr
            dsimp only at hr
            rcases List.mem_cons.mp hr with hEq | hmem
            · subst hEq
              rintro ⟨hst, _⟩
              have hst1 : ("error" : String) = "skipped" := hst
              exact absurd hst1 (by decide)
            · exact processJobsFrom_no_dup_skip e submit cid today rest m s r hmem hun
          | ok pr =>
            rw [hca] at hr
            dsimp only at hr
            rcases List.mem_cons.mp hr with hEq | hmem
            · subst hEq
              rintro ⟨hst, _⟩
              have hst1 : ("applied" : String) = "skipped" := hst
              exact absurd hst1 (by decide)
            · exact processJobsFrom_no_dup_skip e submit cid today rest (m - 1) pr.2 r hmem hun

/-- C9: the duplicate check returns `False` whenever `portal_job_id` is
missing or empty — whatever applications the ledger already holds — and
consequently the batch loop never emits a duplicate skip for a job lacking a
truthy `portal_job_id`. -/
theorem c9_missing_portal_id_never_duplicate :
    (∀ (cid : Nat) (s : DBState),
      checkDuplicateApplication none cid s = false ∧
        checkDuplicateApplication (some "") cid s = false) ∧
    (∀ (e : ApplicationEngine) (submit : JobData → Except String Unit) (cid today : Nat)
        (jobs : List JobData) (m : Int) (s : DBState) (r : BatchResult),
      r ∈ (processJobsFrom e submit cid today jobs m s).1 →
      truthyStr r.job.portal_job_id = false →
      ¬ (r.status = "skipped" ∧ r.reason = some "Already applied to this job")) :=
  ⟨fun _ _ => ⟨rfl, rfl⟩,
   fun e submit cid today jobs m s r hr hun =>
     processJobsFrom_no_dup_skip e submit cid today jobs m s r hr hun⟩

/-- C9 witness: a one-job batch whose job lacks a `portal_job_id`; its
disposition (an `error` from `create_application`) is not a duplicate skip. -/
theorem c9_missing_portal_id_never_duplicate_witness :
    ¬ (({ job := jobNoPid, status := "error",
          reason := some "portal_job_id is required to create an application" } :
          BatchResult).status = "skipped" ∧
        ({ job := jobNoPid, status := "error",
           reason := some "portal_job_id is required to create an application" } :
           BatchResult).reason = some "Already applied to this job") :=
  c9_missing_portal_id_never_duplicate.2 {} (fun _ => .ok ()) 1 0 [jobNoPid] 5 emptyDB
    { job := jobNoPid, status := "error",
      reason := some "portal_job_id is required to create an application" }
    (by with_unfolding_all decide) (by decide)

/-- C8: `create_application` rejects a missing or empty `portal_job_id` with
the `ValueError` and in that case creates no rows; with a `portal_job_id`
present it succeeds, appending exactly one application row and upserting the
listing by its natural key — the listing count for that `portal_job_id`
becomes 1 when it was 0 and is unchanged otherwise. -/
theorem c8_create_application_validation :
    (∀ (job_data : JobData) (cid : Nat) (ms : ℤ) (an : MatchAnalysis) (st : String)
        (today : Nat) (s : DBState),
      truthyStr job_data.portal_job_id = false →
      createApplication job_data cid ms an st today s =
        .error "portal_job_id is required to create an application") ∧
    (∀ (job_data : JobData) (p : String) (cid : Nat) (ms : ℤ) (an : MatchAnalysis)
        (st : String) (today : Nat) (s : DBState),
      job_data.portal_job_id = some p → p ≠ "" →
      ∃ app s1,
        createApplication job_data cid ms an st today s = .ok (app, s1) ∧
        s1.applications = s.applications ++ [app] ∧
        (s1.listings.filter (fun l => l.portal_job_id == p)).length =
          (if (s.listings.filter (fun l => l.portal_job_id == p)).length = 0 then 1
           else (s.listings.filter (fun l => l.portal_job_id == p)).length)) := by
  constructor
  · intro job_data cid ms an st today s h
    rw [createApplication, getOrCreateJobListing, h]
    rfl
  · intro job_data p cid ms an st today s hp hne
    rw [createApplication, getOrCreateJobListing, hp]
    rw [if_neg (by simp [truthyStr, hne])]
    simp only [Option.getD_some]
    cases hfind : s.listings.find? (fun l => l.portal_job_id == p)
    case some listing =>
      refine ⟨_, _, rfl, rfl, ?_⟩
      have hps := List.find?_some hfind
      have hmem : listing ∈ s.listings.filter (fun l => l.portal_job_id == p) :=
        List.mem_filter.mpr ⟨List.mem_of_find?_eq_some hfind, hps⟩
      rw [if_neg ?_]
      exact Nat.pos_iff_ne_zero.mp (List.length_pos.mpr (List.ne_nil_of_mem hmem))
    case none =>
      refine ⟨_, _, rfl, rfl, ?_⟩
      have hnil : s.listings.filter (fun l => l.portal_job_id == p) = [] := by
        rw [List.filter_eq_nil_iff]
        intro l hl
        exact List.find?_eq_none.mp hfind l hl
      rw [List.filter_append, hnil]
      simp

/-- C8 witness: the missing-key rejection and a successful first insert. -/
theorem c8_create_application_validation_witness :
    createApplication jobNoPid 1 100 emptyAnalysis "applied" 0 emptyDB =
        .error "portal_job_id is required to create an application" ∧
      ∃ app s1,
        createApplication (mkTestJob 0) 1 100 emptyAnalysis "applied" 0 emptyDB =
            .ok (app, s1) ∧
          s1.applications = emptyDB.applications ++ [app] ∧
          (s1.listings.filter (fun l => l.portal_job_id == "job0")).length =
            (if (emptyDB.listings.filter (fun l => l.portal_job_id == "job0")).length = 0 then 1
             else (emptyDB.listings.filter (fun l => l.portal_job_id == "job0")).length) :=
  ⟨c8_create_application_validation.1 jobNoPid 1 100 emptyAnalysis "applied" 0 emptyDB rfl,
   c8_create_application_validation.2 (mkTestJob 0) "job0" 1 100 emptyAnalysis "applied" 0
     emptyDB (by decide) (by decide)⟩

/-- Creating an application for a `portal_job_id` that no stored listing
carries succeeds and extends the listing table by exactly that key. -/
theorem createApplication_fresh (job_data : JobData) (p : String) (cid : Nat) (ms : ℤ)
    (an : MatchAnalysis) (st : String) (today : Nat) (s : DBState)
    (hp : job_data.portal_job_id = some p) (hne : p ≠ "")
    (hfresh : ∀ l ∈ s.listings, l.portal_job_id ≠ p) :
    ∃ app s1,
      createApplication job_data cid ms an st today s = .ok (app, s1) ∧
      s1.listings.map JobListing.portal_job_id
        = s.listings.map JobListing.portal_job_id ++ [p] := by
  rw [createApplication, getOrCreateJobListing, hp]
  rw [if_neg (by simp [truthyStr, hne])]
  simp only [Option.getD_some]
  have hfind : s.listings.find? (fun l => l.portal_job_id == p) = none :=
    List.find?_eq_none.mpr (fun l hl => by simp [hfresh l hl])
  rw [hfind]
  exact ⟨_, _, rfl, by simp⟩

/-- The batch loop on jobs that all pass evaluation, all submit successfully,
and carry pairwise-distinct fresh natural keys: the first `remaining` jobs are
`applied` and the rest are capacity skips, in input order. -/
theorem processJobsFrom_all_apply (e : ApplicationEngine)
    (submit : JobData → Except String Unit) (cid today : Nat) :
    ∀ (jobs : List JobData) (m : Nat) (s : DBState),
      (∀ jd ∈ jobs, (evaluateJob e jd).decision = "apply") →
      (∀ jd ∈ jobs, submit jd = .ok ()) →
      (∀ jd ∈ jobs, truthyStr jd.portal_job_id = true) →
      (∀ jd ∈ jobs, ∀ l ∈ s.listings, some l.portal_job_id ≠ jd.portal_job_id) →
      jobs.Pairwise (fun a b => a.portal_job_id ≠ b.portal_job_id) →
      (processJobsFrom e submit cid today jobs (m : Int) s).1.map BatchResult.job = jobs ∧
        (processJobsFrom e submit cid today jobs (m : Int) s).1.map
            (fun r => (r.status, r.reason)) =
          List.replicate (min m jobs.length) ("applied", (none : Option String)) ++
            List.replicate (jobs.length - m) ("skipped", some "Daily application limit reached")
  | [], m, s, _, _, _, _, _ => by simp [processJobsFrom]
  | jd :: rest, 0, s, h1, h2, h3, h4, h5 => by
    have ih := processJobsFrom_all_apply e submit cid today rest 0 s
      (fun j hj => h1 j (by simp [hj])) (fun j hj => h2 j (by simp [hj]))
      (fun j hj => h3 j (by simp [hj])) (fun j hj => h4 j (by simp [hj]))
      (List.pairwise_cons.mp h5).2
    simp only [Nat.cast_zero] at ih
    rw [processJobsFrom, if_pos (by norm_num)]
    dsimp only
    refine ⟨by simp [ih.1], ?_⟩
    simp [ih.2, List.replicate_succ]
  | jd :: rest, m + 1, s, h1, h2, h3, h4, h5 => by
    have hjd_mem : jd ∈ jd :: rest := by simp
    obtain ⟨p, hp, hne⟩ := (truthyStr_iff jd.portal_job_id).mp (h3 jd hjd_mem)
    have hdup : checkDuplicateApplication jd.portal_job_id cid s = false :=
      checkDuplicate_eq_false_of_fresh _ cid s (fun l hl => h4 jd hjd_mem l hl)
    have hfresh : ∀ l ∈ s.listings, l.portal_job_id ≠ p := by
      intro l hl hcontra
      exact (h4 jd hjd_mem l hl) (by rw [hcontra, hp])
    obtain ⟨app, s1, hca, hmap⟩ := createApplication_fresh jd p cid
      (evaluateJob e jd).match_score (evaluateJob e jd).analysis "applied" today s hp hne hfresh
    have hnotle : ¬ (((m + 1 : Nat) : Int) ≤ 0) := by push_cast; omega
    have hcast : ((m + 1 : Nat) : Int) - 1 = ((m : Nat) : Int) := by push_cast; ring
    rw [processJobsFrom, if_neg hnotle, hdup]
    rw [if_neg (by simp)]
    dsimp only
    rw [h1 jd hjd_mem, if_pos (by simp), h2 jd hjd_mem]
    dsimp only
    rw [hca]
    dsimp only
    rw [hcast]
    have hfresh1 : ∀ j ∈ rest, ∀ l ∈ s1.listings, some l.portal_job_id ≠ j.portal_job_id := by
      intro j hj l hl
      have hl1 : l.portal_job_id ∈ s1.listings.map JobListing.portal_job_id :=
        List.mem_map_of_mem _ hl
      rw [hmap] at hl1
      rcases List.mem_append.mp hl1 with hold | hnew
      · obtain ⟨l0, hl0, hpid⟩ := List.mem_map.mp hold
        intro hcontra
        exact (h4 j (by simp [hj]) l0 hl0) (by rw [hpid]; exact hcontra)
      · have hpl : l.portal_job_id = p := by simpa using hnew
        have hhead := (List.pairwise_cons.mp h5).1 j hj
        intro hcontra
        apply hhead
        rw [hp, ← hcontra, hpl]
    have ih := processJobsFrom_all_apply e submit cid today rest m s1
      (fun j hj => h1 j (by simp [hj])) (fun j hj => h2 j (by simp [hj]))
      (fun j hj => h3 j (by simp [hj])) hfresh1
      (List.pairwise_cons.mp h5).2
    refine ⟨by simp [ih.1], ?_⟩
    simp only [List.map_cons, ih.2, List.length_cons, Nat.succ_min_succ, Nat.succ_sub_succ,
      List.replicate_succ, List.cons_append]

/-- C1: a batch of 25 jobs against daily limit 20 with no prior applications
today, where every job passes evaluation, submits successfully, and carries a
fresh, pairwise-distinct `portal_job_id`: every input job yields exactly one
disposition, in input order — the first 20 `applied`, the last 5 `skipped`
with the daily-limit reason — because capacity is captured once at batch start
and decremented locally. -/
theorem c1_batch_daily_cap (e : ApplicationEngine) (submit : JobData → Except String Unit)
    (jobs : List JobData) (cid today : Nat) (s : DBState)
    (hlimit : e.daily_limit = 20) (hlen : jobs.length = 25)
    (hcount : getDailyApplicationCount today s = 0)
    (h1 : ∀ jd ∈ jobs, (evaluateJob e jd).decision = "apply")
    (h2 : ∀ jd ∈ jobs, submit jd = .ok ())
    (h3 : ∀ jd ∈ jobs, truthyStr jd.portal_job_id = true)
    (h4 : ∀ jd ∈ jobs, ∀ l ∈ s.listings, some l.portal_job_id ≠ jd.portal_job_id)
    (h5 : jobs.Pairwise (fun a b => a.portal_job_id ≠ b.portal_job_id)) :
    (processJobBatch e submit jobs cid today s).1.map BatchResult.job = jobs ∧
      (processJobBatch e submit jobs cid today s).1.map (fun r => (r.status, r.reason)) =
        List.replicate 20 ("applied", (none : Option String)) ++
          List.replicate 5 ("skipped", some "Daily application limit reached") := by
  have hrem : getRemainingApplicationsToday e today s = 20 := by
    rw [getRemainingApplicationsToday, hcount, hlimit]
  rw [processJobBatch, hrem]
  have hmain := processJobsFrom_all_apply e submit cid today jobs 20 s h1 h2 h3 h4 h5
  rw [hlen] at hmain
  simpa using hmain

/-- C1 witness: the concrete 25-job batch of scenario C. -/
theorem c1_batch_daily_cap_witness :
    (processJobBatch { daily_limit := 20 } (fun _ => .ok ()) jobs25 1 0 emptyDB).1.map
        (fun r => (r.status, r.reason)) =
      List.replicate 20 ("applied", (none : Option String)) ++
        List.replicate 5 ("skipped", some "Daily application limit reached") :=
  (c1_batch_daily_cap { daily_limit := 20 } (fun _ => .ok ()) jobs25 1 0 emptyDB rfl
    (by decide) rfl (by with_unfolding_all decide) (fun _ _ => rfl)
    (by decide) (by decide) (by decide)).2

/-- Ids are unique in a pairwise-distinct listing table. -/
theorem listings_id_unique {ls : List JobListing}
    (hpw : ls.Pairwise (fun l1 l2 => l1.id ≠ l2.id)) :
    ∀ l1 ∈ ls, ∀ l2 ∈ ls, l1.id = l2.id → l1 = l2 := by
  intro l1 h1 l2 h2 heq
  by_contra hne
  have hsym : Symmetric (fun l1 l2 : JobListing => l1.id ≠ l2.id) :=
    fun _ _ h hyx => h hyx.symm
  exact (List.Pairwise.forall hsym hpw h1 h2 hne) heq

/-- Unpacking a successful `create_application`: the natural key, the
resolved listing and the shape of the new state. -/
theorem createApplication_ok_cases (job_data : JobData) (cid : Nat) (ms : ℤ)
    (an : MatchAnalysis) (st : String) (today : Nat) (s : DBState) (app : JobApplication)
    (s1 : DBState)
    (hok : createApplication job_data cid ms an st today s = .ok (app, s1)) :
    ∃ p listing,
      job_data.portal_job_id = some p ∧ p ≠ "" ∧
      listing.portal_job_id = p ∧
      app.candidate_id = cid ∧ app.status = st ∧ app.job_id = listing.id ∧
      s1.applications = s.applications ++ [app] ∧
      ((listing ∈ s.listings ∧ s1.listings = s.listings ∧
          s1.next_listing_id = s.next_listing_id) ∨
        (listing.id = s.next_listing_id ∧ s1.listings = s.listings ++ [listing] ∧
          s1.next_listing_id = s.next_listing_id + 1)) := by
  rw [createApplication, getOrCreateJobListing] at hok
  by_cases ht : truthyStr job_data.portal_job_id = true
  case neg =>
    have ht1 : truthyStr job_data.portal_job_id = false := by
      cases h : truthyStr job_data.portal_job_id
      · rfl
      · exact absurd h ht
    rw [if_pos (by rw [ht1]; rfl)] at hok
    exact absurd hok (by simp)
  case pos =>
    rw [if_neg (by simp [ht])] at hok
    obtain ⟨p, hp, hne⟩ := (truthyStr_iff _).mp ht
    rw [hp] at hok
    simp only [Option.getD_some] at hok
    cases hfind : s.listings.find? (fun l => l.portal_job_id == p) with
    | some listing =>
      rw [hfind] at hok
      have hps := List.find?_some hfind
      have hmem := List.mem_of_find?_eq_some hfind
      injection hok with hpair
      rw [Prod.mk.injEq] at hpair
      obtain ⟨ha, hs⟩ := hpair
      subst ha
      subst hs
      exact ⟨p, listing, hp, hne, by simpa using hps, rfl, rfl, rfl, rfl,
        Or.inl ⟨hmem, rfl, rfl⟩⟩
    | none =>
      rw [hfind] at hok
      injection hok with hpair
      rw [Prod.mk.injEq] at hpair
      obtain ⟨ha, hs⟩ := hpair
      subst ha
      subst hs
      exact ⟨p, _, hp, hne, rfl, rfl, rfl, rfl, rfl, Or.inr ⟨rfl, rfl, rfl⟩⟩

/-- A checked-then-created `applied` row preserves well-formedness and the
duplicate-prevention invariant. -/
theorem createApplication_preserves (job_data : JobData) (cid : Nat) (ms : ℤ)
    (an : MatchAnalysis) (today : Nat) (s : DBState) (app : JobApplication) (s1 : DBState)
    (hwf : WFState s) (hinv : DupInvariant s)
    (hdup : checkDuplicateApplication job_data.portal_job_id cid s = false)
    (hok : createApplication job_data cid ms an "applied" today s = .ok (app, s1)) :
    WFState s1 ∧ DupInvariant s1 := by
  obtain ⟨p, listing, hp, hne, hlp, hacid, hast, hajid, happs, hcase⟩ :=
    createApplication_ok_cases job_data cid ms an "applied" today s app s1 hok
  obtain ⟨hwf1, hwf2, hwf3⟩ := hwf
  have hdup_nil : s.applications.filter (duplicateRecord p cid s.listings) = [] := by
    rw [hp, checkDuplicateApplication, if_neg (by simp [truthyStr, hne])] at hdup
    simp only [Option.getD_some] at hdup
    rw [List.filter_eq_nil_iff]
    exact List.any_eq_false.mp hdup
  rcases hcase with ⟨hmem, hls, hnext⟩ | ⟨hid, hls, hnext⟩
  · -- the listing already existed; only the applications table grows
    constructor
    · refine ⟨?_, ?_, ?_⟩
      · rw [hls, hnext]; exact hwf1
      · rw [hls]; exact hwf2
      · rw [happs, hnext]
        intro a ha
        rcases List.mem_append.mp ha with h | h
        · exact hwf3 a h
        · have ha1 : a = app := by simpa using h
          rw [ha1, hajid]
          exact hwf1 listing hmem
    · intro q cid1
      rw [pairApplications, happs, hls, List.filter_append]
      by_cases hq : duplicateRecord q cid1 s.listings app = true
      · have hfacts := hq
        rw [duplicateRecord] at hfacts
        simp only [Bool.and_eq_true, Bool.or_eq_true, beq_iff_eq, List.any_eq_true] at hfacts
        obtain ⟨⟨hc1, _⟩, l, hlmem, hlid, hlq⟩ := hfacts
        have hleq : l = listing :=
          listings_id_unique hwf2 l hlmem listing hmem (by rw [hlid, hajid])
        have hq_eq : q = p := by rw [← hlq, hleq, hlp]
        have hc_eq : cid1 = cid := hc1.symm.trans hacid
        rw [hq_eq, hc_eq, hdup_nil, List.nil_append]
        simpa using List.length_filter_le (duplicateRecord p cid s.listings) [app]
      · have hsingle : [app].filter (duplicateRecord q cid1 s.listings) = [] := by
          rw [List.filter_cons]
          simp [hq]
        rw [hsingle, List.append_nil]
        exact hinv q cid1
  · -- a fresh listing row was created alongside the application row
    have hmem1 : listing ∈ s1.listings := by
      rw [hls]; exact List.mem_append.mpr (Or.inr (by simp))
    have hwf1' : ∀ l ∈ s1.listings, l.id < s1.next_listing_id := by
      rw [hls, hnext]
      intro l hl
      rcases List.mem_append.mp hl with h | h
      · exact Nat.lt_trans (hwf1 l h) (Nat.lt_succ_self _)
      · have : l = listing := by simpa using h
        rw [this, hid]
        exact Nat.lt_succ_self _
    have hwf2' : s1.listings.Pairwise (fun l1 l2 => l1.id ≠ l2.id) := by
      rw [hls]
      rw [List.pairwise_append]
      refine ⟨hwf2, by simp, ?_⟩
      intro a ha b hb
      have hb1 : b = listing := by simpa using hb
      rw [hb1, hid]
      exact Nat.ne_of_lt (hwf1 a ha)
    constructor
    · refine ⟨hwf1', hwf2', ?_⟩
      · rw [happs, hnext]
        intro a ha
        rcases List.mem_append.mp ha with h | h
        · exact Nat.lt_trans (hwf3 a h) (Nat.lt_succ_self _)
        · have ha1 : a = app := by simpa using h
          rw [ha1, hajid, hid]
          exact Nat.lt_succ_self _
    · intro q cid1
      have hcong1 : ∀ a ∈ s.applications,
          duplicateRecord q cid1 s1.listings a = duplicateRecord q cid1 s.listings a := by
        intro a ha
        rw [duplicateRecord, duplicateRecord, hls, List.any_append]
        have hnew : [listing].any (fun l => l.id == a.job_id && l.portal_job_id == q)
            = false := by
          have hne1 : (listing.id == a.job_id) = false := by
            rw [beq_eq_false_iff_ne, hid]
            exact fun hcontra => Nat.lt_irrefl _ (hcontra ▸ hwf3 a ha)
          simp [hne1]
        rw [hnew, Bool.or_false]
      rw [pairApplications, happs, List.filter_append, List.filter_congr hcong1]
      by_cases hq : duplicateRecord q cid1 s1.listings app = true
      · have hfacts := hq
        rw [duplicateRecord] at hfacts
        simp only [Bool.and_eq_true, Bool.or_eq_true, beq_iff_eq, List.any_eq_true] at hfacts
        obtain ⟨⟨hc1, _⟩, l, hlmem, hlid, hlq⟩ := hfacts
        rw [hls] at hlmem
        have hleq : l = listing := by
          rcases List.mem_append.mp hlmem with h | h
          · exfalso
            have hlt := hwf1 l h
            rw [hlid, hajid, hid] at hlt
            exact Nat.lt_irrefl _ hlt
          · simpa using h
        have hq_eq : q = p := by rw [← hlq, hleq, hlp]
        have hc_eq : cid1 = cid := hc1.symm.trans hacid
        rw [hq_eq, hc_eq, hdup_nil, List.nil_append]
        simpa using List.length_filter_le (duplicateRecord p cid s1.listings) [app]
      · have hsingle : [app].filter (duplicateRecord q cid1 s1.listings) = [] := by
          rw [List.filter_cons]
          simp [hq]
        rw [hsingle, List.append_nil]
        exact hinv q cid1

/-- The batch loop preserves well-formedness and the duplicate-prevention
invariant, whatever the jobs, capacity and submission outcomes. -/
theorem processJobsFrom_preserves (e : ApplicationEngine)
    (submit : JobData → Except String Unit) (cid today : Nat) :
    ∀ (jobs : List JobData) (m : Int) (s : DBState),
      WFState s → DupInvariant s →
      WFState (processJobsFrom e submit cid today jobs m s).2 ∧
        DupInvariant (processJobsFrom e submit cid today jobs m s).2
  | [], _, s, hwf, hinv => ⟨hwf, hinv⟩
  | jd :: rest, m, s, hwf, hinv => by
    rw [processJobsFrom]
    by_cases h0 : m ≤ 0
    · rw [if_pos h0]
      exact processJobsFrom_preserves e submit cid today rest m s hwf hinv
    rw [if_neg h0]
    cases hdup : checkDuplicateApplication jd.portal_job_id cid s with
    | true =>
      rw [if_pos rfl]
      exact processJobsFrom_preserves e submit cid today rest m s hwf hinv
    | false =>
      rw [if_neg (by simp)]
      dsimp only
      cases hd : (evaluateJob e jd).decision == "apply" with
      | false =>
        rw [if_neg (by simp)]
        exact processJobsFrom_preserves e submit cid today rest m s hwf hinv
      | true =>
        rw [if_pos rfl]
        cases hsub : submit jd with
        | error exc =>
          exact processJobsFrom_preserves e submit cid today rest m s hwf hinv
        | ok u =>
          cases hca : createApplication jd cid (evaluateJob e jd).match_score
              (evaluateJob e jd).analysis "applied" today s with
          | error exc =>
            exact processJobsFrom_preserves e submit cid today rest m s hwf hinv
          | ok pr =>
            obtain ⟨app1, s1⟩ := pr
            obtain ⟨hwfn, hinvn⟩ := createApplication_preserves jd cid
              (evaluateJob e jd).match_score (evaluateJob e jd).analysis today s app1 s1
              hwf hinv hdup hca
            exact processJobsFrom_preserves e submit cid today rest (m - 1) s1 hwfn hinvn

/-- A stored `applied` row of this candidate joined to a listing with this
`portal_job_id` makes the duplicate check fire. -/
theorem checkDuplicate_of_witness (p : String) (cid : Nat) (s : DBState) (hne : p ≠ "")
    (app : JobApplication) (hamem : app ∈ s.applications)
    (hacid : app.candidate_id = cid) (hast : app.status = "applied")
    (listing : JobListing) (hlmem : listing ∈ s.listings)
    (hlid : app.job_id = listing.id) (hlpid : listing.portal_job_id = p) :
    checkDuplicateApplication (some p) cid s = true := by
  rw [checkDuplicateApplication, if_neg (by simp [truthyStr, hne])]
  simp only [Option.getD_some]
  rw [List.any_eq_true]
  refine ⟨app, hamem, ?_⟩
  rw [duplicateRecord]
  simp only [Bool.and_eq_true, Bool.or_eq_true, beq_iff_eq, List.any_eq_true]
  exact ⟨⟨hacid, Or.inl hast⟩, listing, hlmem, hlid.symm, hlpid⟩

/-- C2: one batch run preserves the duplicate-prevention invariant — at most
one `applied`/`interview_received` row per (portal job, candidate) pair,
because the duplicate check is consulted before any `applied` row is created —
so sequential runs preserve it too; and when the same `portal_job_id` appears
twice in one batch (with capacity for both) and the first occurrence is
applied, the second is skipped with the already-applied reason. -/
theorem c2_duplicate_invariant :
    (∀ (e : ApplicationEngine) (submit : JobData → Except String Unit) (jobs : List JobData)
        (cid today : Nat) (s : DBState),
      WFState s → DupInvariant s →
      WFState (processJobBatch e submit jobs cid today s).2 ∧
        DupInvariant (processJobBatch e submit jobs cid today s).2) ∧
    (∀ (e : ApplicationEngine) (submit : JobData → Except String Unit) (j1 j2 : JobData)
        (cid today : Nat) (s : DBState),
      j2.portal_job_id = j1.portal_job_id →
      2 ≤ getRemainingApplicationsToday e today s →
      ((processJobBatch e submit [j1, j2] cid today s).1.map BatchResult.status).getD 0 ""
          = "applied" →
      ((processJobBatch e submit [j1, j2] cid today s).1.map
          (fun r => (r.status, r.reason))).getD 1 ("", none)
        = ("skipped", some "Already applied to this job")) := by
  constructor
  · intro e submit jobs cid today s hwf hinv
    exact processJobsFrom_preserves e submit cid today jobs _ s hwf hinv
  · intro e submit j1 j2 cid today s hsame hcap hfirst
    rw [processJobBatch] at hfirst ⊢
    set m : Int := ((getRemainingApplicationsToday e today s : Nat) : Int) with hm
    have hm2 : (2 : Int) ≤ m := by rw [hm]; exact_mod_cast hcap
    rw [processJobsFrom] at hfirst ⊢
    rw [if_neg (by omega)] at hfirst ⊢
    dsimp only at hfirst ⊢
    split at hfirst
    next hdup => simp at hfirst
    next hdup =>
      split at hfirst
      case isFalse hdec => simp at hfirst
      case isTrue hdec =>
        split at hfirst
        next exc heqsub => simp at hfirst
        next u heqsub =>
          split at hfirst
          next exc heqca => simp at hfirst
          next app1 s1 heqca =>
            obtain ⟨p, listing, hp, hne, hlp, hacid, hast, hajid, happs, hcase⟩ :=
              createApplication_ok_cases j1 cid (evaluateJob e j1).match_score
                (evaluateJob e j1).analysis "applied" today s app1 s1 heqca
            have hdup2 : checkDuplicateApplication j2.portal_job_id cid s1 = true := by
              rw [hsame, hp]
              refine checkDuplicate_of_witness p cid s1 hne app1 ?_ hacid hast listing ?_
                hajid hlp
              · rw [happs]
                exact List.mem_append.mpr (Or.inr (by simp))
              · rcases hcase with ⟨hmem, hls, _⟩ | ⟨_, hls, _⟩
                · rw [hls]; exact hmem
                · rw [hls]; exact List.mem_append.mpr (Or.inr (by simp))
            rw [if_neg hdup, if_pos hdec]
            show ((processJobsFrom e submit cid today [j2] (m - 1) s1).1.map
                (fun r => (r.status, r.reason))).getD 0 ("", none)
              = ("skipped", some "Already applied to this job")
            rw [processJobsFrom]
            rw [if_neg (by omega), if_pos hdup2]
            rfl

/-- C2 witness: the invariant-preservation half instantiated on the empty
store with a concrete one-job batch. -/
theorem c2_duplicate_invariant_witness :
    WFState (processJobBatch {} (fun _ => .ok ()) [mkTestJob 0] 1 0 emptyDB).2 ∧
      DupInvariant (processJobBatch {} (fun _ => .ok ()) [mkTestJob 0] 1 0 emptyDB).2 :=
  c2_duplicate_invariant.1 {} (fun _ => .ok ()) [mkTestJob 0] 1 0 emptyDB
    ⟨by simp [emptyDB], by simp [emptyDB], by simp [emptyDB]⟩
    (fun p c => by simp [pairApplications, emptyDB])
